import Mathlib

/-!
# Verification of the cloudctl batch-provisioning and retry subsystem

Shallow embedding of the error-classification layer (`internal/cloudflare`
error helpers), the retry executor (`Client.WithRetry`), the DNS batch
coordinator (`BatchCreateDNSRecords` / `BatchCreateDNSRecordsConcurrent` /
`processZone` / `processRecord`) and the CloudFront invalidation request
builder (`internal/aws.CreateInvalidation`).

Conventions of the embedding:
* Go `error` values are the inductive `GoError`; a nil `error` is `none` in
  `Option GoError`.
* Durations are natural numbers of seconds (the source converts the integer
  config fields via `time.Duration(n) * time.Second`).
* Wall-clock fields (`StartTime`, `EndTime`, `Duration`) of `DNSBatchResult`
  are not part of the embedded report; every claim below is about the
  structural part of the report.
* The nondeterministic completion order of the goroutines spawned by
  `BatchCreateDNSRecordsConcurrent` is an explicit parameter (a list of zone
  indices in the order in which the slot writes happen); boundedness of the
  semaphore affects scheduling only, never a written value.
-/

namespace Cloudctl

/-- `ErrorType` from the cloudflare error file (Go `iota` order). -/
inductive ErrorType where
  | Unknown
  | Auth
  | NotFound
  | Conflict
  | RateLimit
  | Network
  | Validation
  | Permission
deriving DecidableEq, Repr

/-- Go `error` values as seen by this subsystem: `raw` is an opaque error
(`errors.New`, SDK errors), `wrapf` is `fmt.Errorf("<pre>%w", err)` (whose
`Error()` prepends `pre` and whose `Unwrap` returns the cause), and `cf` is
the package's `*Error` struct `{Type, Operation, Message, Err, HTTPCode}`.
`nilE` stands for a nil Go error stored in the `Err` field of an `*Error`
(e.g. `NewError` leaves `Err` nil); it never occurs as a returned error. -/
inductive GoError where
  | raw (msg : String)
  | wrapf (pre : String) (cause : GoError)
  | cf (etype : ErrorType) (operation : String) (message : String)
      (cause : GoError) (httpCode : Nat)
  | nilE
deriving DecidableEq, Repr

/-- `(*Error).Error()` / generic `err.Error()` string. -/
def errMessage : GoError → String
  | .raw m => m
  | .wrapf pre cause => pre ++ errMessage cause
  | .cf _ op m _ _ => if op = "" then m else op ++ ": " ++ m
  | .nilE => ""

/-- `toLower` from the source: ASCII byte-wise lowering. -/
def toLowerChar (c : Char) : Char :=
  if 'A' ≤ c ∧ c ≤ 'Z' then Char.ofNat (c.toNat + 32) else c

def toLowerL (s : List Char) : List Char := s.map toLowerChar

/-- `s[i:i+len(sub)] == sub` at position 0. -/
def matchesAt : List Char → List Char → Bool
  | _, [] => true
  | [], _ :: _ => false
  | c :: s, d :: sub => c == d && matchesAt s sub

/-- `containsSubstr` from the source: sliding-window substring test
(empty pattern matches; a pattern longer than the string does not). -/
def containsSubstr : List Char → List Char → Bool
  | [], sub => sub.isEmpty
  | s@(_ :: rest), sub => matchesAt s sub || containsSubstr rest sub

/-- `contains(s, substrs...)`: case-insensitive any-of substring test. -/
def containsAny (s : String) (subs : List String) : Bool :=
  let ls := toLowerL s.toList
  subs.any fun sub => containsSubstr ls (toLowerL sub.toList)

/-- The `switch`/`case contains(...)` chain of `classifyError`, acting on the
error's message string. -/
def classifyMsg (errMsg : String) : ErrorType :=
  if containsAny errMsg ["authentication", "unauthorized", "invalid token", "invalid api token"] then .Auth
  else if containsAny errMsg ["not found", "does not exist"] then .NotFound
  else if containsAny errMsg ["already exists", "conflict", "duplicate"] then .Conflict
  else if containsAny errMsg ["rate limit", "too many requests"] then .RateLimit
  else if containsAny errMsg ["network", "connection", "timeout", "dial"] then .Network
  else if containsAny errMsg ["invalid", "validation", "bad request"] then .Validation
  else if containsAny errMsg ["forbidden", "permission denied", "access denied"] then .Permission
  else .Unknown

/-- `classifyError(err)` (nil errors classify as Unknown). -/
def classifyError : Option GoError → ErrorType
  | none => .Unknown
  | some e => classifyMsg (errMessage e)

/-- `errors.As(err, &cfErr)`: the first `*Error` in the unwrap chain. -/
def errorsAsCF : GoError → Option GoError
  | e@(.cf _ _ _ _ _) => some e
  | .wrapf _ cause => errorsAsCF cause
  | .raw _ => none
  | .nilE => none

/-- `WrapError(err, operation)`. -/
def WrapError (err : Option GoError) (operation : String) : Option GoError :=
  match err with
  | none => none
  | some e =>
    match errorsAsCF e with
    | some (.cf t op msg cause code) =>
        some (.cf t (if op = "" then operation else op) msg cause code)
    | _ =>
        some (.cf (classifyError (some e)) operation (errMessage e) e 0)

/-- True iff the value is the package's classified `*Error`. -/
def isClassified : GoError → Bool
  | .cf _ _ _ _ _ => true
  | _ => false

/-- First-match-wins classification over an ordered `(category, vocabulary)`
priority list — the shape in which the spec describes `classify`
(case-insensitive substring matching, fixed priority order). -/
def classifyByVocab (vocab : List (ErrorType × List String)) (msg : String) : ErrorType :=
  match vocab with
  | [] => .Unknown
  | (t, subs) :: rest => if containsAny msg subs then t else classifyByVocab rest msg

/-- The priority list with exactly the vocabulary the spec sentence lists
(used to compare the spec's description against `classifyError`). -/
def claimedVocabulary : List (ErrorType × List String) :=
  [(.Auth, ["unauthorized", "invalid token"]),
   (.NotFound, ["not found", "does not exist"]),
   (.Conflict, ["already exists", "duplicate"]),
   (.RateLimit, ["rate limit", "too many requests"]),
   (.Network, ["timeout", "connection", "dial"]),
   (.Validation, ["invalid", "bad request"]),
   (.Permission, ["forbidden", "access denied"])]

/-- The priority list with the full vocabulary the source's `classifyError`
actually matches against. -/
def sourceVocabulary : List (ErrorType × List String) :=
  [(.Auth, ["authentication", "unauthorized", "invalid token", "invalid api token"]),
   (.NotFound, ["not found", "does not exist"]),
   (.Conflict, ["already exists", "conflict", "duplicate"]),
   (.RateLimit, ["rate limit", "too many requests"]),
   (.Network, ["network", "connection", "timeout", "dial"]),
   (.Validation, ["invalid", "validation", "bad request"]),
   (.Permission, ["forbidden", "permission denied", "access denied"])]

/-! ## The retry executor (`Client.WithRetry`, `shouldRetry`) -/

/-- `config.RetryConfig` (delays are in seconds). -/
structure RetryConfig where
  enabled : Bool
  maxAttempts : Nat
  initialDelay : Nat
  maxDelay : Nat
deriving DecidableEq, Repr

/-- Observable outcome of one `WithRetry` execution: the returned error,
how many times `fn` was invoked, and the virtual time spent in backoff
waits (seconds; `fn` itself is instantaneous in the embedding). -/
structure RetryRun where
  err : Option GoError
  calls : Nat
  elapsed : Nat
deriving DecidableEq, Repr

/-- `context.Canceled` as returned by `ctx.Err()`. -/
def ctxCanceledErr : GoError := .raw "context canceled"

/-- `shouldRetry(err)` from the source: nil is not retried, every non-nil
error currently is. -/
def shouldRetry : Option GoError → Bool
  | none => false
  | some _ => true

/-- The `select { case <-ctx.Done(): ...; case <-time.After(delay): ... }`
race, in virtual time: entering the wait at time `elapsed`, the cancellation
branch wins iff the context's cancel instant is strictly before the timer
fires at `elapsed + delay`. -/
def ctxFires (cancelTime : Option Nat) (elapsed delay : Nat) : Bool :=
  match cancelTime with
  | none => false
  | some tc => tc < elapsed + delay

/-- The `for attempt := 1; attempt <= maxAttempts; attempt++` loop of
`WithRetry`. `left` is the number of loop iterations still permitted
(including the current one); when it reaches `0` the loop has exited and the
function returns `WrapError(lastErr, operation)`. `fn k` is the outcome of
the `k`-th invocation of `fn` (`none` = success). -/
def retryLoop (fn : Nat → Option GoError) (cancelTime : Option Nat)
    (maxDelay : Nat) (operation : String) :
    Nat → Nat → Nat → Nat → Nat → Option GoError → RetryRun
  | 0, _attempt, _delay, elapsed, calls, lastErr =>
      { err := WrapError lastErr operation, calls := calls, elapsed := elapsed }
  | left + 1, attempt, delay, elapsed, calls, _lastErr =>
      match fn attempt with
      | none => { err := none, calls := calls + 1, elapsed := elapsed }
      | some e =>
        if shouldRetry (some e) = false then
          { err := WrapError (some e) operation, calls := calls + 1, elapsed := elapsed }
        else if left = 0 then
          -- last attempt: no wait, the loop condition fails next and the
          -- function returns WrapError(lastErr, operation)
          { err := WrapError (some e) operation, calls := calls + 1, elapsed := elapsed }
        else if ctxFires cancelTime elapsed delay then
          { err := some ctxCanceledErr, calls := calls + 1,
            elapsed := max elapsed (cancelTime.getD 0) }
        else
          -- waited `delay`; then delay *= 2 capped at maxDelay
          retryLoop fn cancelTime maxDelay operation left (attempt + 1)
            (if delay * 2 > maxDelay then maxDelay else delay * 2)
            (elapsed + delay) (calls + 1) (some e)

/-- The backoff delay used for the `(j+1)`-st wait when the first wait uses
`delay`: the loop doubles the delay after each wait and caps it at
`maxDelay` (mirrors the `delay *= 2; if delay > maxDelay { delay = maxDelay }`
update). -/
def dseq (maxDelay : Nat) (delay : Nat) : Nat → Nat
  | 0 => delay
  | j + 1 => dseq maxDelay (if delay * 2 > maxDelay then maxDelay else delay * 2) j

/-- Virtual time at which the `(j+1)`-st backoff wait begins, starting from
time `elapsed` with first delay `delay`: the sum of the first `j` delays. -/
def eseq (maxDelay : Nat) (delay : Nat) (elapsed : Nat) : Nat → Nat
  | 0 => elapsed
  | j + 1 =>
      eseq maxDelay (if delay * 2 > maxDelay then maxDelay else delay * 2)
        (elapsed + delay) j

/-- `Client.WithRetry(ctx, operation, fn)`. `cfg` is `config.Get()`
(`none` = no configuration loaded); `cancelTime` is the virtual instant at
which `ctx` is cancelled, if ever. -/
def WithRetry (cfg : Option RetryConfig) (cancelTime : Option Nat)
    (operation : String) (fn : Nat → Option GoError) : RetryRun :=
  match cfg with
  | none => { err := fn 1, calls := 1, elapsed := 0 }
  | some c =>
    if c.enabled = false then { err := fn 1, calls := 1, elapsed := 0 }
    else retryLoop fn cancelTime c.maxDelay operation c.maxAttempts 1 c.initialDelay 0 0 none

/-! ## The DNS batch coordinator (`dns_batch` file of the cloudflare package) -/

/-- `DNSRecordConfig` (yaml record entry). The Go `TTL` field is `float64`;
every value this subsystem handles is integral (yaml integers, and the
`TTL = 1` auto default), so the embedding uses `Nat`. The `Type` field is
named `rtype` because `Type` is reserved in Lean. -/
structure DNSRecordConfig where
  rtype : String
  name : String
  content : String
  ttl : Nat
  proxied : Bool
deriving DecidableEq, Repr

/-- `DNSZoneConfig`. -/
structure DNSZoneConfig where
  zone : String
  records : List DNSRecordConfig
deriving DecidableEq, Repr

/-- `DNSBatchConfig`. -/
structure DNSBatchConfig where
  zones : List DNSZoneConfig
deriving DecidableEq, Repr

/-- The fields of `ZoneInfo` the batch path reads. -/
structure ZoneInfo where
  id : String
  name : String
deriving DecidableEq, Repr

/-- The fields of `DNSRecordInfo` the batch path reads. -/
structure DNSRecordInfo where
  id : String
deriving DecidableEq, Repr

/-- `DNSRecordResult`. -/
structure DNSRecordResult where
  rtype : String
  name : String
  content : String
  success : Bool
  error : Option GoError
  recordID : String
deriving DecidableEq, Repr

/-- `DNSZoneResult`. -/
structure DNSZoneResult where
  zone : String
  success : Bool
  totalRecords : Nat
  successRecords : Nat
  failedRecords : Nat
  recordResults : List DNSRecordResult
  error : Option GoError
deriving DecidableEq, Repr

/-- `DNSBatchResult` without its wall-clock fields
(`StartTime`/`EndTime`/`Duration`). -/
structure DNSBatchResult where
  totalZones : Nat
  totalRecords : Nat
  successZones : Nat
  successRecords : Nat
  failedZones : Nat
  failedRecords : Nat
  zoneResults : List DNSZoneResult
deriving DecidableEq, Repr

/-- The deterministic Resource API the coordinator calls into:
`Client.GetZoneByName` (group resolution) and `Client.CreateDNSRecord`
(item creation), each including its own internal retry. -/
structure ResourceAPI where
  getZoneByName : String → Except GoError ZoneInfo
  createDNSRecord : String → DNSRecordConfig → Except GoError DNSRecordInfo

/-- `processRecord`. -/
def processRecord (api : ResourceAPI) (zoneID : String) (rc : DNSRecordConfig) :
    DNSRecordResult :=
  match api.createDNSRecord zoneID rc with
  | .error e =>
      { rtype := rc.rtype, name := rc.name, content := rc.content,
        success := false, error := some e, recordID := "" }
  | .ok record =>
      { rtype := rc.rtype, name := rc.name, content := rc.content,
        success := true, error := none, recordID := record.id }

/-- The body of `processZone`'s record loop: run `processRecord`, append its
`DNSRecordResult`, bump the success/failure counter, and log the
`CreateDNSRecord` invocation in the trace. -/
def recordStep (api : ResourceAPI) (zoneID : String)
    (acc : DNSZoneResult × List (String × DNSRecordConfig)) (rc : DNSRecordConfig) :
    DNSZoneResult × List (String × DNSRecordConfig) :=
  let rr := processRecord api zoneID rc
  ({ acc.1 with
      recordResults := acc.1.recordResults ++ [rr],
      successRecords := acc.1.successRecords + (if rr.success then 1 else 0),
      failedRecords := acc.1.failedRecords + (if rr.success then 0 else 1) },
   acc.2 ++ [(zoneID, rc)])

/-- `processZone`, instrumented with the list of `CreateDNSRecord`
invocations it makes (the pair's second component records each call's
`(zoneID, record)` arguments, in call order). -/
def processZone (api : ResourceAPI) (zc : DNSZoneConfig) :
    DNSZoneResult × List (String × DNSRecordConfig) :=
  let init : DNSZoneResult :=
    { zone := zc.zone, success := false, totalRecords := zc.records.length,
      successRecords := 0, failedRecords := 0, recordResults := [], error := none }
  match api.getZoneByName zc.zone with
  | .error e =>
      ({ init with
          success := false, error := some e,
          failedRecords := zc.records.length }, [])
  | .ok zone =>
      let r := zc.records.foldl (recordStep api zone.id)
        (init, ([] : List (String × DNSRecordConfig)))
      ({ r.1 with success := r.1.failedRecords == 0 }, r.2)

/-- The per-zone bookkeeping of the sequential batch loop: append the zone
result and accumulate every top-level counter. -/
def addZoneResult (res : DNSBatchResult) (zr : DNSZoneResult) : DNSBatchResult :=
  { res with
      zoneResults := res.zoneResults ++ [zr],
      successZones := res.successZones + (if zr.success then 1 else 0),
      failedZones := res.failedZones + (if zr.success then 0 else 1),
      successRecords := res.successRecords + zr.successRecords,
      failedRecords := res.failedRecords + zr.failedRecords }

/-- `Client.BatchCreateDNSRecords` (sequential mode): zone results appended
in plan order, counters accumulated per zone, always `return result, nil`. -/
def BatchCreateDNSRecords (api : ResourceAPI) (config : DNSBatchConfig) :
    Except GoError DNSBatchResult :=
  let init : DNSBatchResult :=
    { totalZones := config.zones.length,
      totalRecords := config.zones.foldl (fun acc z => acc + z.records.length) 0,
      successZones := 0, failedZones := 0,
      successRecords := 0, failedRecords := 0, zoneResults := [] }
  .ok <| config.zones.foldl
    (fun res zc => addZoneResult res (processZone api zc).1) init

/-- The Go zero value of `DNSZoneResult` (`make([]DNSZoneResult, n)` fills
the pre-sized slice with these before the goroutines overwrite them). -/
def zeroZoneResult : DNSZoneResult :=
  { zone := "", success := false, totalRecords := 0, successRecords := 0,
    failedRecords := 0, recordResults := [], error := none }

/-- The single write a concurrent-mode goroutine performs:
`result.ZoneResults[idx] = c.processZone(ctx, cfg, progressCallback)`. -/
def writeSlot (api : ResourceAPI) (zones : List DNSZoneConfig)
    (slots : List DNSZoneResult) (idx : Nat) : List DNSZoneResult :=
  match zones[idx]? with
  | some zc => slots.set idx (processZone api zc).1
  | none => slots

/-- The post-join counter reduction of the concurrent batch (the zone-result
slots are already in place, only the counters are accumulated). -/
def addZoneCounters (res : DNSBatchResult) (zr : DNSZoneResult) : DNSBatchResult :=
  { res with
      successZones := res.successZones + (if zr.success then 1 else 0),
      failedZones := res.failedZones + (if zr.success then 0 else 1),
      successRecords := res.successRecords + zr.successRecords,
      failedRecords := res.failedRecords + zr.failedRecords }

/-- `Client.BatchCreateDNSRecordsConcurrent`. Every goroutine `idx` performs
exactly one write to its own pre-allocated slot; `order` is the order in
which those slot writes happen at runtime (a permutation of the zone indices
in any actual execution). The semaphore of size `maxConcurrency` bounds how
many zones are in flight but influences no written value, so it is an unused
parameter here. After `wg.Wait()` the counters are reduced over the slots. -/
def BatchCreateDNSRecordsConcurrent (api : ResourceAPI) (config : DNSBatchConfig)
    (_maxConcurrency : Nat) (order : List Nat) : Except GoError DNSBatchResult :=
  let slots0 : List DNSZoneResult := List.replicate config.zones.length zeroZoneResult
  let slots := order.foldl (writeSlot api config.zones) slots0
  .ok <| slots.foldl addZoneCounters
    { totalZones := config.zones.length,
      totalRecords := config.zones.foldl (fun acc z => acc + z.records.length) 0,
      successZones := 0, failedZones := 0, successRecords := 0, failedRecords := 0,
      zoneResults := slots }

/-! ## CloudFront invalidation request construction (`internal/aws/cdn.go`) -/

/-- `aws.CreateInvalidationInput`. -/
structure CreateInvalidationInput where
  distributionID : String
  paths : List String
  callerReference : String
deriving DecidableEq, Repr

/-- The `types.InvalidationBatch` request the function builds. -/
structure InvalidationBatchReq where
  callerReference : String
  quantity : Nat
  items : List String
deriving DecidableEq, Repr

/-- `aws.Client.CreateInvalidation`, up to the point where the request is
handed to the CloudFront SDK (a single call; nothing in this repository
retries it). `now` is `time.Now().Unix()` at the moment of the call. -/
def CreateInvalidation (input : CreateInvalidationInput) (now : Nat) :
    Except GoError InvalidationBatchReq :=
  if input.distributionID = "" then .error (.raw "distribution_id 不能为空")
  else if input.paths.length = 0 then .error (.raw "至少需要指定一个路径")
  else
    let callerReference :=
      if input.callerReference = "" then "cloudctl-" ++ toString now
      else input.callerReference
    .ok { callerReference := callerReference, quantity := input.paths.length,
          items := input.paths }

/-! ## Observers used by the statements and proofs -/

/-- The zone results a deterministic run produces, in plan order. -/
def zoneOutcomes (api : ResourceAPI) (zones : List DNSZoneConfig) : List DNSZoneResult :=
  zones.map fun zc => (processZone api zc).1

/-- Sum of a per-zone counter over a result list. -/
def sumZ (f : DNSZoneResult → Nat) (l : List DNSZoneResult) : Nat := (l.map f).sum

/-- Contribution of one zone result to `SuccessZones`. -/
def zSucc (zr : DNSZoneResult) : Nat := if zr.success then 1 else 0

/-- Contribution of one zone result to `FailedZones`. -/
def zFail (zr : DNSZoneResult) : Nat := if zr.success then 0 else 1

/-- A small deterministic fake Resource API used by the concrete witnesses:
zone "a.com" resolves to id "za", every other zone fails to resolve, and
records named "bad" fail to create. -/
def apiW : ResourceAPI :=
  { getZoneByName := fun n =>
      if n == "a.com" then .ok { id := "za", name := "a.com" }
      else .error (.raw "zone not found"),
    createDNSRecord := fun _ rc =>
      if rc.name == "bad" then .error (.raw "invalid record") else .ok { id := "rid" } }

/-- A two-zone plan used by the concrete witnesses: "a.com" with 3 records
(one of which fails to create), "b.com" with 2 records (resolution fails). -/
def cfgW : DNSBatchConfig :=
  { zones :=
      [{ zone := "a.com",
         records := [{ rtype := "A", name := "ok1", content := "1.1.1.1", ttl := 1, proxied := false },
                     { rtype := "A", name := "bad", content := "2.2.2.2", ttl := 1, proxied := false },
                     { rtype := "A", name := "ok2", content := "3.3.3.3", ttl := 1, proxied := false }] },
       { zone := "b.com",
         records := [{ rtype := "A", name := "x", content := "4.4.4.4", ttl := 1, proxied := false },
                     { rtype := "A", name := "y", content := "5.5.5.5", ttl := 1, proxied := false }] }] }

/-! ## Helper lemmas -/

/-- `errors.As` only ever yields a `*Error` node. -/
lemma errorsAsCF_shape : ∀ (e x : GoError), errorsAsCF e = some x →
    ∃ t op msg cause code, x = .cf t op msg cause code := by
  intro e
  induction e with
  | raw m => intro x h; simp [errorsAsCF] at h
  | wrapf pre cause ih => intro x h; exact ih x (by simpa [errorsAsCF] using h)
  | cf t op msg cause code _ =>
      intro x h
      simp [errorsAsCF] at h
      exact ⟨t, op, msg, cause, code, h.symm⟩
  | nilE => intro x h; simp [errorsAsCF] at h

/-- Wrapping a non-nil error always yields a non-nil error. -/
lemma WrapError_some_ne_none (e : GoError) (op : String) :
    WrapError (some e) op ≠ none := by
  simp only [WrapError]
  split <;> simp

/-! ## Claim theorems -/

/-- Claim C3, counterexample: the claim's vocabulary is incomplete. The
message "authentication failed" is classified `Auth` by the code (its Auth
vocabulary also contains "authentication"), while first-match-wins matching
over exactly the claimed vocabulary yields `Unknown`. -/
theorem C3_counterexample :
    classifyMsg "authentication failed" = ErrorType.Auth ∧
    classifyByVocab claimedVocabulary "authentication failed" = ErrorType.Unknown ∧
    classifyMsg "authentication failed" ≠
      classifyByVocab claimedVocabulary "authentication failed" := by
  refine ⟨by decide, by decide, by decide⟩

/-- Claim C3 as amended: classification is a pure function computed by
case-insensitive substring matching in the fixed first-match-wins priority
order Auth → NotFound → Conflict → RateLimit → Network → Validation →
Permission → Unknown, with vocabulary Auth ("authentication",
"unauthorized", "invalid token", "invalid api token"), NotFound ("not
found", "does not exist"), Conflict ("already exists", "conflict",
"duplicate"), RateLimit ("rate limit", "too many requests"), Network
("network", "connection", "timeout", "dial"), Validation ("invalid",
"validation", "bad request"), Permission ("forbidden", "permission denied",
"access denied"); in particular a message containing "invalid token"
classifies as Auth, not Validation. -/
theorem C3_classification :
    (∀ msg : String, classifyMsg msg = classifyByVocab sourceVocabulary msg) ∧
    (∀ msg : String, containsAny msg ["invalid token"] = true →
        classifyMsg msg = ErrorType.Auth) := by
  constructor
  · intro msg
    rfl
  · intro msg h
    have hauth : containsAny msg
        ["authentication", "unauthorized", "invalid token", "invalid api token"] = true := by
      simp only [containsAny, List.any_eq_true] at h ⊢
      rcases h with ⟨sub, hmem, hsub⟩
      simp at hmem
      exact ⟨"invalid token", by simp, by simpa [hmem] using hsub⟩
    simp [classifyMsg, hauth]

/-- Witness for C3: a concrete message containing "invalid token" (in mixed
case) classifies as Auth. -/
theorem C3_classification_witness :
    classifyMsg "request failed: Invalid Token provided" = ErrorType.Auth :=
  C3_classification.2 "request failed: Invalid Token provided" (by decide)

/-- Claim C10: `WrapError` is nil-preserving; on an error whose chain
already holds a classified `*Error` it returns that `*Error` with its
category untouched, filling `Operation` only if it was empty; re-wrapping
with a different operation changes nothing once an operation is set. -/
theorem C10_WrapError_algebra :
    (∀ op : String, WrapError none op = none) ∧
    (∀ (e : GoError) (t : ErrorType) (op msg : String) (cause : GoError)
        (code : Nat) (newOp : String),
        errorsAsCF e = some (.cf t op msg cause code) →
        WrapError (some e) newOp =
          some (.cf t (if op = "" then newOp else op) msg cause code)) ∧
    (∀ (e : GoError) (op1 op2 : String), op1 ≠ "" →
        WrapError (WrapError (some e) op1) op2 = WrapError (some e) op1) := by
  refine ⟨fun _ => rfl, ?_, ?_⟩
  · intro e t op msg cause code newOp h
    simp [WrapError, h]
  · intro e op1 op2 h1
    match hcf : errorsAsCF e with
    | some x =>
        obtain ⟨t, op, msg, cause, code, rfl⟩ := errorsAsCF_shape e x hcf
        by_cases hop : op = ""
        · subst hop
          simp [WrapError, hcf, errorsAsCF, h1]
        · simp [WrapError, hcf, errorsAsCF, hop]
    | none =>
        rcases e with m | ⟨pre, cause⟩ | ⟨t, op, msg, cause, code⟩ | _ <;>
          simp_all [WrapError, errorsAsCF, h1]

/-- Witness for C10: a wrapped chain containing a classified Auth error with
empty operation gets exactly that operation filled in; double wrapping of a
fresh error is inert. -/
theorem C10_WrapError_algebra_witness :
    WrapError (some (.wrapf "ctx: " (.cf .Auth "" "m" .nilE 0))) "op" =
      some (.cf .Auth "op" "m" .nilE 0) ∧
    WrapError (WrapError (some (.raw "x")) "op1") "op2" =
      WrapError (some (.raw "x")) "op1" := by
  constructor
  · have h := C10_WrapError_algebra.2.1 (.wrapf "ctx: " (.cf .Auth "" "m" .nilE 0))
      .Auth "" "m" .nilE 0 "op" rfl
    simpa using h
  · exact C10_WrapError_algebra.2.2 (.raw "x") "op1" "op2" (by decide)

/-- Claim C9, counterexample: the synthesized `CallerReference` is derived
from the current Unix second alone — there is no counter — so two distinct
invalidation requests issued in the same second receive the identical token
`cloudctl-100`, contradicting synthesis "from a monotonic/unique source
(current time plus a counter)". -/
theorem C9_counterexample :
    CreateInvalidation { distributionID := "D1", paths := ["/a"], callerReference := "" } 100 =
      .ok { callerReference := "cloudctl-100", quantity := 1, items := ["/a"] } ∧
    CreateInvalidation { distributionID := "D2", paths := ["/b"], callerReference := "" } 100 =
      .ok { callerReference := "cloudctl-100", quantity := 1, items := ["/b"] } := by
  constructor <;> rfl

/-- Claim C9 as amended: when the caller supplies no `CallerReference`,
`CreateInvalidation` synthesizes the token deterministically from the
current Unix time alone (`"cloudctl-" ++ seconds`, no counter), before the
request is built; the function performs a single SDK call (nothing in the
repository retries it), so the token is generated exactly once per item. -/
theorem C9_token_synthesis (input : CreateInvalidationInput) (now : Nat)
    (h1 : input.callerReference = "") (h2 : input.distributionID ≠ "")
    (h3 : input.paths ≠ []) :
    CreateInvalidation input now =
      .ok { callerReference := "cloudctl-" ++ toString now,
            quantity := input.paths.length, items := input.paths } := by
  simp [CreateInvalidation, h1, h2, h3]

/-- Witness for C9: a concrete tokenless input at Unix second 42. -/
theorem C9_token_synthesis_witness :
    CreateInvalidation { distributionID := "D1", paths := ["/a", "/b"], callerReference := "" } 42 =
      .ok { callerReference := "cloudctl-42", quantity := 2, items := ["/a", "/b"] } :=
  C9_token_synthesis
    { distributionID := "D1", paths := ["/a", "/b"], callerReference := "" } 42
    rfl (by decide) (by decide)

/-- Claim C7, counterexample: with retries disabled (`config.Get() == nil`),
`WithRetry` returns the failing `fn`'s raw error as-is — it is NOT wrapped
into a classified `*Error`, contradicting the claim's "wrapped as a
ClassifiedError". -/
theorem C7_counterexample :
    (WithRetry none none "op" fun _ => some (.raw "boom")) =
      { err := some (.raw "boom"), calls := 1, elapsed := 0 } ∧
    isClassified (.raw "boom") = false := by
  exact ⟨rfl, rfl⟩

/-- Claim C7 as amended: when the retry policy is disabled (`enabled` is
false, or no configuration is present), `WithRetry` invokes `fn` exactly
once and returns its outcome verbatim — a failure is returned unwrapped,
not classified — with one attempt and no backoff wait. -/
theorem C7_disabled_single_call (cfg : Option RetryConfig) (cancelTime : Option Nat)
    (op : String) (fn : Nat → Option GoError)
    (h : cfg = none ∨ ∃ c, cfg = some c ∧ c.enabled = false) :
    WithRetry cfg cancelTime op fn = { err := fn 1, calls := 1, elapsed := 0 } := by
  rcases h with rfl | ⟨c, rfl, hc⟩
  · rfl
  · simp [WithRetry, hc]

/-- Witness for C7: absent configuration, one call, raw error through. -/
theorem C7_disabled_single_call_witness :
    WithRetry none none "op" (fun _ => some (.raw "x")) =
      { err := some (.raw "x"), calls := 1, elapsed := 0 } :=
  C7_disabled_single_call none none "op" (fun _ => some (.raw "x")) (Or.inl rfl)

/-- Claim C4: with `maxAttempts=3, initialDelay=1, maxDelay=4` and an
always-failing `fn`, `WithRetry` invokes `fn` exactly 3 times, returns a
failure, and the backoff waits are 1 then 2 seconds (delay starts at
`initialDelay` and doubles after each wait), so the total waited time is
`1 + 2 = 3` time units. -/
theorem C4_retry_bounds (op : String) (fn : Nat → Option GoError)
    (hfail : ∀ k, fn k ≠ none) :
    (WithRetry (some { enabled := true, maxAttempts := 3, initialDelay := 1, maxDelay := 4 })
        none op fn).calls = 3 ∧
    (WithRetry (some { enabled := true, maxAttempts := 3, initialDelay := 1, maxDelay := 4 })
        none op fn).err ≠ none ∧
    (WithRetry (some { enabled := true, maxAttempts := 3, initialDelay := 1, maxDelay := 4 })
        none op fn).elapsed = 3 := by
  obtain ⟨e1, h1⟩ := Option.ne_none_iff_exists'.mp (hfail 1)
  obtain ⟨e2, h2⟩ := Option.ne_none_iff_exists'.mp (hfail 2)
  obtain ⟨e3, h3⟩ := Option.ne_none_iff_exists'.mp (hfail 3)
  refine ⟨?_, ?_, ?_⟩ <;>
    simp [WithRetry, retryLoop, h1, h2, h3, shouldRetry, ctxFires,
      WrapError_some_ne_none]

/-- Witness for C4: the constantly failing function. -/
theorem C4_retry_bounds_witness :
    (WithRetry (some { enabled := true, maxAttempts := 3, initialDelay := 1, maxDelay := 4 })
        none "op" fun _ => some (.raw "boom")).calls = 3 ∧
    (WithRetry (some { enabled := true, maxAttempts := 3, initialDelay := 1, maxDelay := 4 })
        none "op" fun _ => some (.raw "boom")).err ≠ none ∧
    (WithRetry (some { enabled := true, maxAttempts := 3, initialDelay := 1, maxDelay := 4 })
        none "op" fun _ => some (.raw "boom")).elapsed = 3 :=
  C4_retry_bounds "op" (fun _ => some (.raw "boom")) (fun _ => by simp)

/-- While `fn` keeps failing and the context stays live, the retry loop runs
all of its remaining iterations: the call count grows by exactly `left`. -/
lemma retryLoop_calls_all_fail (fn : Nat → Option GoError) (maxDelay : Nat)
    (op : String) (hfail : ∀ k, fn k ≠ none) :
    ∀ (left attempt delay elapsed calls : Nat) (lastErr : Option GoError),
    (retryLoop fn none maxDelay op left attempt delay elapsed calls lastErr).calls =
      calls + left := by
  intro left
  induction left with
  | zero => intro attempt delay elapsed calls lastErr; simp [retryLoop]
  | succ n ih =>
      intro attempt delay elapsed calls lastErr
      obtain ⟨e, he⟩ := Option.ne_none_iff_exists'.mp (hfail attempt)
      by_cases hn : n = 0
      · subst hn; simp [retryLoop, he, shouldRetry]
      · simp only [retryLoop, he, shouldRetry]
        simp [hn, ctxFires, ih]
        omega

/-- Claim C6: every classified error category is treated as retryable —
`shouldRetry` returns true for every non-nil error, so `WithRetry` never
exits early on a "non-retryable" classification and, while `fn` keeps
failing (with a live context), consumes attempts all the way up to
`maxAttempts`. -/
theorem C6_all_retryable :
    (∀ e : GoError, shouldRetry (some e) = true) ∧
    (∀ (c : RetryConfig) (op : String) (fn : Nat → Option GoError),
        c.enabled = true → (∀ k, fn k ≠ none) →
        (WithRetry (some c) none op fn).calls = c.maxAttempts) := by
  refine ⟨fun _ => rfl, ?_⟩
  intro c op fn hen hfail
  simp [WithRetry, hen, retryLoop_calls_all_fail fn c.maxDelay op hfail]

/-- Witness for C6: policy with 5 attempts, constantly failing fn. -/
theorem C6_all_retryable_witness :
    (WithRetry (some { enabled := true, maxAttempts := 5, initialDelay := 1, maxDelay := 4 })
        none "op" fun _ => some (.raw "boom")).calls = 5 :=
  C6_all_retryable.2 { enabled := true, maxAttempts := 5, initialDelay := 1, maxDelay := 4 }
    "op" (fun _ => some (.raw "boom")) rfl (fun _ => by simp)

/-- The backoff start times never lie before the current elapsed time. -/
lemma eseq_ge (maxDelay : Nat) :
    ∀ (j delay elapsed : Nat), elapsed ≤ eseq maxDelay delay elapsed j := by
  intro j
  induction j with
  | zero => intro delay elapsed; exact Nat.le_refl _
  | succ n ih =>
      intro delay elapsed
      calc elapsed ≤ elapsed + delay := Nat.le_add_right _ _
        _ ≤ _ := ih _ _

/-- If `fn` fails on attempts `attempt .. attempt+k` and the context's
cancel instant falls inside the `(k+1)`-st backoff wait, the retry loop
stops inside that wait: `fn` runs exactly `k+1` more times and the
cancellation error comes back. -/
lemma retryLoop_cancel (fn : Nat → Option GoError) (maxDelay : Nat) (op : String) :
    ∀ (k left attempt delay elapsed calls tc : Nat) (lastErr : Option GoError),
    (∀ j, j ≤ k → fn (attempt + j) ≠ none) →
    k + 1 < left →
    eseq maxDelay delay elapsed k ≤ tc →
    tc < eseq maxDelay delay elapsed k + dseq maxDelay delay k →
    retryLoop fn (some tc) maxDelay op left attempt delay elapsed calls lastErr =
      { err := some ctxCanceledErr, calls := calls + k + 1, elapsed := tc } := by
  intro k
  induction k with
  | zero =>
      intro left attempt delay elapsed calls tc lastErr hfails hleft hlo hhi
      obtain ⟨l2, rfl⟩ : ∃ l2, left = l2 + 2 := ⟨left - 2, by omega⟩
      obtain ⟨e, he⟩ := Option.ne_none_iff_exists'.mp (hfails 0 (Nat.le_refl 0))
      rw [Nat.add_zero] at he
      simp only [eseq, dseq] at hlo hhi
      simp [retryLoop, he, shouldRetry, ctxFires, hhi, Nat.max_eq_right hlo]
  | succ n ih =>
      intro left attempt delay elapsed calls tc lastErr hfails hleft hlo hhi
      obtain ⟨l2, rfl⟩ : ∃ l2, left = l2 + 2 := ⟨left - 2, by omega⟩
      obtain ⟨e, he⟩ := Option.ne_none_iff_exists'.mp (hfails 0 (Nat.zero_le _))
      rw [Nat.add_zero] at he
      have hwait : elapsed + delay ≤ eseq maxDelay delay elapsed (n + 1) := by
        have h := eseq_ge maxDelay n
          (if delay * 2 > maxDelay then maxDelay else delay * 2) (elapsed + delay)
        simpa [eseq] using h
      have hnofire : ¬ tc < elapsed + delay := by omega
      have hrec := ih (l2 + 1) (attempt + 1)
        (if delay * 2 > maxDelay then maxDelay else delay * 2)
        (elapsed + delay) (calls + 1) tc (some e)
        (fun j hj => by
          have h := hfails (j + 1) (by omega)
          simpa [Nat.add_assoc, Nat.add_comm 1 j] using h)
        (by omega)
        (by simpa [eseq] using hlo)
        (by simpa [eseq, dseq] using hhi)
      have hstep : retryLoop fn (some tc) maxDelay op (l2 + 2) attempt delay elapsed calls lastErr
          = retryLoop fn (some tc) maxDelay op (l2 + 1) (attempt + 1)
              (if delay * 2 > maxDelay then maxDelay else delay * 2)
              (elapsed + delay) (calls + 1) (some e) := by
        conv_lhs => rw [retryLoop.eq_def]
        simp [he, shouldRetry, ctxFires, hnofire]
      have hcalls : calls + 1 + n + 1 = calls + (n + 1) + 1 := by omega
      rw [hstep, hrec, hcalls]

/-- Claim C8: if the context is cancelled while `WithRetry` is waiting out a
backoff delay — the cancel instant `tc` falls inside the `(k+1)`-st wait,
with further attempts still remaining — the wait is aborted at `tc`, `fn`
is never invoked again (exactly `k+1` invocations happened), and the
cancellation error `ctx.Err()` is returned as the result instead of the
remaining attempts being completed. -/
theorem C8_cancellation_during_backoff (c : RetryConfig) (op : String)
    (fn : Nat → Option GoError) (tc k : Nat)
    (hen : c.enabled = true)
    (hfails : ∀ j, j ≤ k → fn (1 + j) ≠ none)
    (hk : k + 1 < c.maxAttempts)
    (hlo : eseq c.maxDelay c.initialDelay 0 k ≤ tc)
    (hhi : tc < eseq c.maxDelay c.initialDelay 0 k + dseq c.maxDelay c.initialDelay k) :
    WithRetry (some c) (some tc) op fn =
      { err := some ctxCanceledErr, calls := k + 1, elapsed := tc } := by
  have h := retryLoop_cancel fn c.maxDelay op k c.maxAttempts 1
    c.initialDelay 0 0 tc none hfails hk hlo hhi
  simpa [WithRetry, hen] using h

/-- Witness for C8: `maxAttempts = 3`, waits of 1 then 2 seconds; cancel
instant 2 falls inside the second backoff wait `[1, 3)`, so `fn` runs
exactly twice and the cancellation error is returned at time 2. -/
theorem C8_cancellation_during_backoff_witness :
    WithRetry (some { enabled := true, maxAttempts := 3, initialDelay := 1, maxDelay := 4 })
        (some 2) "op" (fun _ => some (.raw "boom")) =
      { err := some ctxCanceledErr, calls := 2, elapsed := 2 } :=
  C8_cancellation_during_backoff
    { enabled := true, maxAttempts := 3, initialDelay := 1, maxDelay := 4 }
    "op" (fun _ => some (.raw "boom")) 2 1 rfl (fun _ _ => by simp)
    (by decide) (by decide) (by decide)

/-- Claim C5: if group resolution (`GetZoneByName`) fails for a zone with M
records, `processZone` short-circuits: the zone result carries
`succeeded = false`, the resolution error, `failedRecords = M`,
`successRecords = 0`, an empty `recordResults` list — and the trace of
`CreateDNSRecord` invocations is empty (zero item-creation calls). -/
theorem C5_resolution_short_circuit (api : ResourceAPI) (zc : DNSZoneConfig) (e : GoError)
    (h : api.getZoneByName zc.zone = .error e) :
    processZone api zc =
      ({ zone := zc.zone, success := false, totalRecords := zc.records.length,
         successRecords := 0, failedRecords := zc.records.length,
         recordResults := [], error := some e }, []) := by
  simp [processZone, h]

/-- Witness for C5: a 2-record zone whose resolution fails. -/
theorem C5_resolution_short_circuit_witness :
    processZone
      { getZoneByName := fun _ => .error (.raw "zone not found"),
        createDNSRecord := fun _ _ => .ok { id := "r" } }
      { zone := "b.com",
        records := [{ rtype := "A", name := "x", content := "1.1.1.1", ttl := 1, proxied := false },
                    { rtype := "A", name := "y", content := "2.2.2.2", ttl := 1, proxied := false }] } =
      ({ zone := "b.com", success := false, totalRecords := 2,
         successRecords := 0, failedRecords := 2,
         recordResults := [], error := some (.raw "zone not found") }, []) :=
  C5_resolution_short_circuit
    { getZoneByName := fun _ => .error (.raw "zone not found"),
      createDNSRecord := fun _ _ => .ok { id := "r" } }
    { zone := "b.com",
      records := [{ rtype := "A", name := "x", content := "1.1.1.1", ttl := 1, proxied := false },
                  { rtype := "A", name := "y", content := "2.2.2.2", ttl := 1, proxied := false }] }
    (.raw "zone not found") rfl

/-- Each record-loop step processes exactly one record: the success and
failure counters together grow by one per record, while `totalRecords` and
the zone name are untouched. -/
lemma recordFold_inv (api : ResourceAPI) (zid : String) :
    ∀ (rcs : List DNSRecordConfig) (acc : DNSZoneResult × List (String × DNSRecordConfig)),
    (rcs.foldl (recordStep api zid) acc).1.successRecords +
        (rcs.foldl (recordStep api zid) acc).1.failedRecords =
      acc.1.successRecords + acc.1.failedRecords + rcs.length ∧
    (rcs.foldl (recordStep api zid) acc).1.totalRecords = acc.1.totalRecords ∧
    (rcs.foldl (recordStep api zid) acc).1.zone = acc.1.zone := by
  intro rcs
  induction rcs with
  | nil => intro acc; simp
  | cons rc rest ih =>
      intro acc
      rw [List.foldl_cons]
      obtain ⟨h1, h2, h3⟩ := ih (recordStep api zid acc rc)
      refine ⟨?_, by rw [h2]; simp [recordStep], by rw [h3]; simp [recordStep]⟩
      rw [h1]
      by_cases h : (processRecord api zid rc).success <;> simp [recordStep, h] <;> omega

/-- The structural fields of a zone result: `totalRecords` is the zone's
record count, the group key is the zone name, and every record counts as
exactly one success or one failure. -/
lemma processZone_fields (api : ResourceAPI) (zc : DNSZoneConfig) :
    (processZone api zc).1.totalRecords = zc.records.length ∧
    (processZone api zc).1.zone = zc.zone ∧
    (processZone api zc).1.successRecords + (processZone api zc).1.failedRecords =
      zc.records.length := by
  unfold processZone
  cases h : api.getZoneByName zc.zone with
  | error e => simp
  | ok zone =>
      simp only []
      obtain ⟨h1, h2, h3⟩ := recordFold_inv api zone.id zc.records
        ({ zone := zc.zone, success := false, totalRecords := zc.records.length,
           successRecords := 0, failedRecords := 0, recordResults := [], error := none },
         ([] : List (String × DNSRecordConfig)))
      refine ⟨by simpa using h2, by simpa using h3, by simpa using h1⟩

/-- Folding the sequential per-zone bookkeeping over a list of zone results
appends them in order and adds each counter contribution. -/
lemma foldl_addZoneResult (l : List DNSZoneResult) :
    ∀ init : DNSBatchResult,
    l.foldl addZoneResult init =
      { init with
          zoneResults := init.zoneResults ++ l,
          successZones := init.successZones + sumZ zSucc l,
          failedZones := init.failedZones + sumZ zFail l,
          successRecords := init.successRecords + sumZ (fun zr => zr.successRecords) l,
          failedRecords := init.failedRecords + sumZ (fun zr => zr.failedRecords) l } := by
  induction l with
  | nil => intro init; simp [sumZ]
  | cons zr rest ih =>
      intro init
      rw [List.foldl_cons, ih]
      simp [addZoneResult, sumZ, zSucc, zFail, Nat.add_assoc]

/-- Folding the concurrent post-join counter reduction over the slots adds
each counter contribution and leaves `zoneResults` as the slots. -/
lemma foldl_addZoneCounters (l : List DNSZoneResult) :
    ∀ init : DNSBatchResult,
    l.foldl addZoneCounters init =
      { init with
          successZones := init.successZones + sumZ zSucc l,
          failedZones := init.failedZones + sumZ zFail l,
          successRecords := init.successRecords + sumZ (fun zr => zr.successRecords) l,
          failedRecords := init.failedRecords + sumZ (fun zr => zr.failedRecords) l } := by
  induction l with
  | nil => intro init; simp [sumZ]
  | cons zr rest ih =>
      intro init
      rw [List.foldl_cons, ih]
      simp [addZoneCounters, sumZ, zSucc, zFail, Nat.add_assoc]

/-- The sequential batch run in closed form. -/
lemma BatchCreateDNSRecords_eq (api : ResourceAPI) (config : DNSBatchConfig) :
    BatchCreateDNSRecords api config = .ok
      { totalZones := config.zones.length,
        totalRecords := config.zones.foldl (fun acc z => acc + z.records.length) 0,
        successZones := sumZ zSucc (zoneOutcomes api config.zones),
        failedZones := sumZ zFail (zoneOutcomes api config.zones),
        successRecords := sumZ (fun zr => zr.successRecords) (zoneOutcomes api config.zones),
        failedRecords := sumZ (fun zr => zr.failedRecords) (zoneOutcomes api config.zones),
        zoneResults := zoneOutcomes api config.zones } := by
  unfold BatchCreateDNSRecords
  dsimp only
  rw [← List.foldl_map (fun zc => (processZone api zc).1) addZoneResult config.zones]
  rw [foldl_addZoneResult]
  simp [zoneOutcomes]

/-- Writing slots never changes the length of the slot list. -/
lemma slotsFold_length (api : ResourceAPI) (zones : List DNSZoneConfig) :
    ∀ (order : List Nat) (init : List DNSZoneResult),
    (order.foldl (writeSlot api zones) init).length = init.length := by
  intro order
  induction order with
  | nil => intro init; rfl
  | cons idx rest ih =>
      intro init
      rw [List.foldl_cons, ih]
      unfold writeSlot
      cases zones[idx]? <;> simp

/-- After an arbitrary schedule of slot writes, slot `i` holds the
deterministic outcome of zone `i` if some goroutine `i` has run (its index
appears in the schedule and is in range), and its initial content
otherwise. -/
lemma slotsFold_get (api : ResourceAPI) (zones : List DNSZoneConfig) :
    ∀ (order : List Nat) (init : List DNSZoneResult), init.length = zones.length →
    ∀ i : Nat,
    (order.foldl (writeSlot api zones) init)[i]? =
      if i ∈ order ∧ i < zones.length then
        (zones[i]?).map (fun zc => (processZone api zc).1)
      else init[i]? := by
  intro order
  induction order with
  | nil => intro init _ i; simp
  | cons idx rest ih =>
      intro init hlen i
      rw [List.foldl_cons]
      have hlen' : (writeSlot api zones init idx).length = zones.length := by
        unfold writeSlot
        cases zones[idx]? <;> simp [hlen]
      rw [ih (writeSlot api zones init idx) hlen' i]
      by_cases hr : i ∈ rest ∧ i < zones.length
      · simp [hr, List.mem_cons, hr.2]
      · rw [if_neg hr]
        by_cases hi : i = idx
        · subst hi
          cases hz : zones[i]? with
          | none =>
              have : ¬ i < zones.length := by
                intro hlt
                exact absurd hz (by simp [List.getElem?_eq_getElem hlt])
              simp [writeSlot, hz, this]
          | some zc =>
              have hilt : i < zones.length := by
                by_contra hlt
                rw [List.getElem?_eq_none (by omega)] at hz
                exact Option.noConfusion hz
              simp [writeSlot, hz, List.getElem?_set, hlen, hilt]
        · have hcond : ¬ (i ∈ idx :: rest ∧ i < zones.length) := by
            intro ⟨hmem, hlt⟩
            rcases List.mem_cons.mp hmem with h | h
            · exact hi h
            · exact hr ⟨h, hlt⟩
          rw [if_neg hcond]
          unfold writeSlot
          cases zones[idx]? with
          | none => rfl
          | some zc => simp [List.getElem?_set, Ne.symm hi]

/-- When the write schedule covers every zone index exactly (any permutation
of the index range), the slots, regardless of completion order, end up equal
to the sequential plan-ordered outcome list. -/
lemma slots_eq_outcomes (api : ResourceAPI) (zones : List DNSZoneConfig)
    (order : List Nat) (hperm : order.Perm (List.range zones.length)) :
    order.foldl (writeSlot api zones) (List.replicate zones.length zeroZoneResult) =
      zoneOutcomes api zones := by
  apply List.ext_getElem?
  intro i
  rw [slotsFold_get api zones order _ (by simp) i]
  by_cases hi : i < zones.length
  · have hmem : i ∈ order := by rw [hperm.mem_iff]; simpa using hi
    rw [if_pos ⟨hmem, hi⟩]
    rw [zoneOutcomes, List.getElem?_map]
  · rw [if_neg (by omega)]
    rw [List.getElem?_replicate, if_neg hi]
    rw [zoneOutcomes, List.getElem?_map, List.getElem?_eq_none (by omega)]
    rfl

/-- The concurrent batch run in closed form, for any write schedule that is
a permutation of the zone indices: the very same report as the sequential
run. -/
lemma BatchCreateDNSRecordsConcurrent_eq (api : ResourceAPI) (config : DNSBatchConfig)
    (maxC : Nat) (order : List Nat)
    (hperm : order.Perm (List.range config.zones.length)) :
    BatchCreateDNSRecordsConcurrent api config maxC order = .ok
      { totalZones := config.zones.length,
        totalRecords := config.zones.foldl (fun acc z => acc + z.records.length) 0,
        successZones := sumZ zSucc (zoneOutcomes api config.zones),
        failedZones := sumZ zFail (zoneOutcomes api config.zones),
        successRecords := sumZ (fun zr => zr.successRecords) (zoneOutcomes api config.zones),
        failedRecords := sumZ (fun zr => zr.failedRecords) (zoneOutcomes api config.zones),
        zoneResults := zoneOutcomes api config.zones } := by
  unfold BatchCreateDNSRecordsConcurrent
  dsimp only
  rw [slots_eq_outcomes api config.zones order hperm]
  rw [foldl_addZoneCounters]
  simp

/-- Pointwise sums of per-zone counters combine. -/
lemma sumZ_add (f g : DNSZoneResult → Nat) (l : List DNSZoneResult) :
    sumZ f l + sumZ g l = sumZ (fun z => f z + g z) l := by
  induction l with
  | nil => rfl
  | cons zr rest ih => simp [sumZ] at ih ⊢; omega

/-- A congruence principle for `sumZ` over the outcome list. -/
lemma sumZ_congr (f g : DNSZoneResult → Nat) (l : List DNSZoneResult)
    (h : ∀ z ∈ l, f z = g z) : sumZ f l = sumZ g l := by
  unfold sumZ
  rw [List.map_congr_left h]

/-- Summing the constant 1 just counts the list. -/
lemma sumZ_one (l : List DNSZoneResult) : sumZ (fun _ => 1) l = l.length := by
  induction l with
  | nil => rfl
  | cons zr rest ih => simp [sumZ] at ih ⊢; omega

/-- Every zone result of a run satisfies `success + failed = total`. -/
lemma outcomes_sum_eq_total (api : ResourceAPI) (zones : List DNSZoneConfig) :
    ∀ z ∈ zoneOutcomes api zones,
    z.successRecords + z.failedRecords = z.totalRecords := by
  intro z hz
  rw [zoneOutcomes] at hz
  obtain ⟨zc, _, rfl⟩ := List.mem_map.mp hz
  obtain ⟨h1, _, h3⟩ := processZone_fields api zc
  rw [h1]
  exact h3

/-- The report's upfront `totalRecords` equals the sum of the per-zone
`totalRecords` of the run's outcomes. -/
lemma sumZ_outcomes_total (api : ResourceAPI) (zones : List DNSZoneConfig) :
    sumZ (fun zr => zr.totalRecords) (zoneOutcomes api zones) =
      zones.foldl (fun acc z => acc + z.records.length) 0 := by
  unfold sumZ zoneOutcomes
  rw [List.map_map]
  rw [show ((fun zr => zr.totalRecords) ∘ fun zc => (processZone api zc).1) =
        fun zc => zc.records.length from
      funext fun zc => (processZone_fields api zc).1]
  rw [List.sum_eq_foldl, List.foldl_map]

/-- Claim C1: running the batch sequentially and concurrently (any
`maxConcurrency > 1`, any runtime completion order of the goroutines)
against the same deterministic Resource API produces the same report —
each group's result sits in its pre-allocated index slot, so `groupResults`
keeps the input plan's `groupKey` order — the two reports being structurally
identical (wall-clock fields excluded from the embedding). -/
theorem C1_order_preservation (api : ResourceAPI) (config : DNSBatchConfig)
    (maxC : Nat) (order : List Nat)
    (_hmaxC : 1 < maxC) (hperm : order.Perm (List.range config.zones.length)) :
    BatchCreateDNSRecordsConcurrent api config maxC order = BatchCreateDNSRecords api config ∧
    (∃ r, BatchCreateDNSRecords api config = .ok r ∧
      r.zoneResults.map (fun zr => zr.zone) = config.zones.map (fun zc => zc.zone)) := by
  refine ⟨?_, ?_⟩
  · rw [BatchCreateDNSRecordsConcurrent_eq api config maxC order hperm,
        BatchCreateDNSRecords_eq api config]
  · refine ⟨_, BatchCreateDNSRecords_eq api config, ?_⟩
    simp only [zoneOutcomes, List.map_map]
    exact List.map_congr_left fun zc _ => (processZone_fields api zc).2.1

/-- Witness for C1: the two-zone plan, concurrency 8, completion order
reversed relative to the plan. -/
theorem C1_order_preservation_witness :
    BatchCreateDNSRecordsConcurrent apiW cfgW 8 [1, 0] = BatchCreateDNSRecords apiW cfgW ∧
    (∃ r, BatchCreateDNSRecords apiW cfgW = .ok r ∧
      r.zoneResults.map (fun zr => zr.zone) = cfgW.zones.map (fun zc => zc.zone)) :=
  C1_order_preservation apiW cfgW 8 [1, 0] (by decide) (by decide)

/-- Claim C2: the batch run never aborts because a group or item failed —
both modes return a nil error and one `GroupResult` per input `GroupSpec`
(in plan order), and the top-level counters are a pure reduction over the
group results: `totalItems = Σ groupResults[i].totalItems`,
`successItems + failedItems = totalItems`, and
`successGroups + failedGroups = totalGroups`. -/
theorem C2_report_invariants (api : ResourceAPI) (config : DNSBatchConfig)
    (maxC : Nat) (order : List Nat)
    (hperm : order.Perm (List.range config.zones.length)) :
    ∃ r, BatchCreateDNSRecords api config = .ok r ∧
      BatchCreateDNSRecordsConcurrent api config maxC order = .ok r ∧
      r.zoneResults.length = config.zones.length ∧
      r.totalZones = config.zones.length ∧
      r.totalRecords = sumZ (fun zr => zr.totalRecords) r.zoneResults ∧
      r.successRecords + r.failedRecords = r.totalRecords ∧
      r.successZones + r.failedZones = r.totalZones := by
  refine ⟨_, BatchCreateDNSRecords_eq api config,
      BatchCreateDNSRecordsConcurrent_eq api config maxC order hperm, ?_, rfl, ?_, ?_, ?_⟩
  · simp [zoneOutcomes]
  · exact (sumZ_outcomes_total api config.zones).symm
  · rw [sumZ_add]
    rw [sumZ_congr _ (fun zr => zr.totalRecords) _ (outcomes_sum_eq_total api config.zones)]
    exact sumZ_outcomes_total api config.zones
  · rw [sumZ_add]
    rw [show (fun z => zSucc z + zFail z) = (fun _ : DNSZoneResult => 1) from
        funext fun z => by unfold zSucc zFail; by_cases h : z.success <;> simp [h]]
    rw [sumZ_one]
    simp [zoneOutcomes]

/-- Witness for C2: the two-zone plan with a partial failure in zone one
and a resolution failure in zone two still yields a nil-error report on
both paths, with the counters reducing over the two group results. -/
theorem C2_report_invariants_witness :
    ∃ r, BatchCreateDNSRecords apiW cfgW = .ok r ∧
      BatchCreateDNSRecordsConcurrent apiW cfgW 8 [1, 0] = .ok r ∧
      r.zoneResults.length = cfgW.zones.length ∧
      r.totalZones = cfgW.zones.length ∧
      r.totalRecords = sumZ (fun zr => zr.totalRecords) r.zoneResults ∧
      r.successRecords + r.failedRecords = r.totalRecords ∧
      r.successZones + r.failedZones = r.totalZones :=
  C2_report_invariants apiW cfgW 8 [1, 0] (by decide)

end Cloudctl
